import Mathlib

set_option maxRecDepth 8000

/-!
# Invoice-App: shallow embedding of `src/app.py` and verification of its spec

This file embeds the invoicing application's data model, totals calculator,
create/edit/delete handlers and the two export routines (spreadsheet and PDF)
as executable Lean definitions, and proves or refutes the specification's
claims about them.

Modelling conventions:
* Python floats are modelled as rationals (`ℚ`); Python ints as `Int`/`Nat`.
* The relational store is a `DB` structure holding the `Invoice` and
  `InvoiceItem` tables as lists of rows; SQLAlchemy's autoincrement primary
  key is modelled as `max id + 1`.
* A request handler is a function from the committed database state (and the
  parsed form data) to the new committed state paired with an outcome.  An
  unhandled Python exception (e.g. `int()`/`float()` on a malformed string)
  rolls the session back to the last commit, so on the error outcome the
  returned state is the state as of the last `db.session.commit()` executed.
* Python's builtins `int(s)` and `float(s)` are modelled by hand-written
  decimal parsers `pyParseInt`/`pyParseFloat` (sign, digits, optional
  fractional part; surrounding whitespace stripped); `str.strip()` by
  `pyStrip`.  Rendering of floats into f-strings is kept symbolic (the
  rational value is stored in the cell/text constructor) so that no claim
  depends on a model of Python's float-to-string conversion.
-/

namespace InvoiceApp

/-! ## Python string/number primitives -/

/-- Whitespace characters removed by Python's `str.strip()` (the common ones). -/
def pyIsSpace (c : Char) : Bool :=
  c = ' ' || c = '\t' || c = '\n' || c = '\r' || c = '\x0b' || c = '\x0c'

/-- Strip leading and trailing whitespace from a character list. -/
def stripChars (l : List Char) : List Char :=
  ((l.dropWhile pyIsSpace).reverse.dropWhile pyIsSpace).reverse

/-- Models Python's `str.strip()`. -/
def pyStrip (s : String) : String :=
  ⟨stripChars s.data⟩

/-- Accumulate a decimal digit string; `none` if a non-digit occurs. -/
def digitsValGo : List Char → Nat → Option Nat
  | [], acc => some acc
  | c :: cs, acc =>
    if c.isDigit then digitsValGo cs (acc * 10 + (c.toNat - 48)) else none

/-- Value of a non-empty all-digit character list, else `none`. -/
def digitsVal (l : List Char) : Option Nat :=
  match l with
  | [] => none
  | _ => digitsValGo l 0

/-- Optional leading sign: returns (sign, rest). -/
def splitSign : List Char → Int × List Char
  | '-' :: cs => (-1, cs)
  | '+' :: cs => (1, cs)
  | cs => (1, cs)

/-- Models Python's `int(s)` on decimal strings: optional surrounding
whitespace, optional sign, then one or more digits; anything else raises
(`none`). -/
def pyParseInt (s : String) : Option Int :=
  let (sg, body) := splitSign (stripChars s.data)
  (digitsVal body).map (fun n => sg * (n : Int))

/-- Split a character list at the first-level occurrences of `'.'`. -/
def splitDot : List Char → List (List Char)
  | [] => [[]]
  | c :: cs =>
    if c = '.' then [] :: splitDot cs
    else
      match splitDot cs with
      | [] => [[c]]
      | h :: t => (c :: h) :: t

/-- Models Python's `float(s)` on plain decimal literals: optional
surrounding whitespace, optional sign, digits with an optional single `'.'`
(at least one digit overall).  Exponent/`inf`/`nan` forms, which the
application's forms never produce, are not modelled and return `none`. -/
def pyParseFloat (s : String) : Option ℚ :=
  let (sg, body) := splitSign (stripChars s.data)
  match splitDot body with
  | [a] => (digitsVal a).map (fun n => (sg : ℚ) * n)
  | [a, b] =>
    match a, b with
    | [], [] => none
    | [], _ =>
      (digitsVal b).map (fun y => (sg : ℚ) * ((y : ℚ) / 10 ^ b.length))
    | _, [] =>
      (digitsVal a).map (fun x => (sg : ℚ) * x)
    | _, _ =>
      match digitsVal a, digitsVal b with
      | some x, some y => some ((sg : ℚ) * ((x : ℚ) + (y : ℚ) / 10 ^ b.length))
      | _, _ => none
  | _ => none

/-! ## Data model (`src/app.py` lines 41-54)

`InvoiceRow` and `ItemRow` are the relational rows (tables `invoice` and
`invoice_item`); `Invoice` is the ORM view used by `calculate_invoice_totals`
and the exporters, with `items` the relationship of line 47.  `date_created`
is carried as its formatted string (only `strftime('%Y-%m-%d')` output is
ever consumed). -/

structure InvoiceRow where
  id : Nat
  client_name : String
  tax_rate : ℚ
  discount_rate : ℚ
  date_created : String
deriving DecidableEq, Repr

structure ItemRow where
  invoice_id : Nat
  name : String
  qty : Int
  price : ℚ
deriving DecidableEq, Repr

structure DB where
  invoices : List InvoiceRow
  items : List ItemRow
deriving DecidableEq, Repr

/-- ORM view of an invoice together with its line items
(`Invoice.items` relationship, line 47). -/
structure Invoice where
  id : Nat
  client_name : String
  tax_rate : ℚ
  discount_rate : ℚ
  date_created : String
  items : List ItemRow
deriving DecidableEq, Repr

/-- `Invoice.query.get(invoice_id)` together with the `items` relationship:
the first row whose primary key matches, with its line items attached. -/
def loadInvoice (db : DB) (invoice_id : Nat) : Option Invoice :=
  (db.invoices.find? (fun r => r.id = invoice_id)).map
    (fun r =>
      ⟨r.id, r.client_name, r.tax_rate, r.discount_rate, r.date_created,
       db.items.filter (fun it => it.invoice_id = r.id)⟩)

/-! ## Totals calculator (`src/app.py` lines 66-71) -/

/-- `calculate_invoice_totals`: subtotal, tax amount, discount amount, total. -/
def calculate_invoice_totals (invoice : Invoice) : ℚ × ℚ × ℚ × ℚ :=
  let subtotal := (invoice.items.map (fun item => (item.qty : ℚ) * item.price)).sum
  let tax_amount := subtotal * (invoice.tax_rate / 100)
  let discount_amount := subtotal * (invoice.discount_rate / 100)
  let total := subtotal + tax_amount - discount_amount
  (subtotal, tax_amount, discount_amount, total)

/-- Calling the totals calculator twice in sequence, threading the invoice
value through: the embedding of two consecutive
`calculate_invoice_totals(invoice)` calls.  The Python body contains no
assignment to the invoice or its items (it only reads
`item.qty`, `item.price`, `invoice.tax_rate`, `invoice.discount_rate`), so
its embedding passes the invoice through unchanged. -/
def calculate_invoice_totals_twice (inv : Invoice) :
    ((ℚ × ℚ × ℚ × ℚ) × (ℚ × ℚ × ℚ × ℚ)) × Invoice :=
  let r1 := calculate_invoice_totals inv
  let r2 := calculate_invoice_totals inv
  ((r1, r2), inv)

/-! ## Form data and item parsing (`src/app.py` lines 106-122, 131-145)

A submitted form carries the three scalar fields (absent fields are
modelled as `none`; `request.form.get(k, d)` supplies the default) and the
three parallel arrays `item_name[]`, `item_qty[]`, `item_price[]`. -/

structure Form where
  client_name : Option String
  tax_rate : Option String
  discount_rate : Option String
  item_names : List String
  item_qtys : List String
  item_prices : List String
deriving DecidableEq, Repr

/-- `float(request.form.get('tax_rate', 0))`: the default `0` is the Python
int `0`, and `float(0) = 0.0`; a present field goes through `float(s)`. -/
def getRate : Option String → Option ℚ
  | none => some 0
  | some s => pyParseFloat s

/-- `request.form.get('client_name', '').strip()`. -/
def getClientName (f : Form) : String :=
  pyStrip (f.client_name.getD "")

/-- Python's `zip` over three lists: truncates to the shortest. -/
def zip3 {α β γ : Type} : List α → List β → List γ → List (α × β × γ)
  | a :: as, b :: bs, c :: cs => (a, b, c) :: zip3 as bs cs
  | _, _, _ => []

/-- The item loop body shared by `new_invoice` and `edit_invoice`
(lines 117-121 and 140-144): rows whose stripped name is empty are skipped;
otherwise `int(qty)` and `float(price)` are parsed, and a parse failure
raises (aborting the whole loop, hence `none`). -/
def parseRows : List (String × String × String) → Option (List (String × Int × ℚ))
  | [] => some []
  | (name, qty, price) :: rest =>
    if pyStrip name = "" then parseRows rest
    else
      match pyParseInt qty, pyParseFloat price with
      | some qv, some pv => (parseRows rest).map (fun l => (pyStrip name, qv, pv) :: l)
      | _, _ => none

/-- `for name, qty, price in zip(names, qtys, prices): ...` -/
def parseItems (names qtys prices : List String) : Option (List (String × Int × ℚ)) :=
  parseRows (zip3 names qtys prices)

/-- Spec-side description of the persisted rows (refinement target for
`parseRows`): keep exactly the rows whose trimmed name is non-blank, then
parse each kept row's qty as an integer and price as a float, failing if
any of those parses fails. -/
def specPersistedItems (rows : List (String × String × String)) :
    Option (List (String × Int × ℚ)) :=
  List.mapM'
    (fun r =>
      match pyParseInt r.2.1, pyParseFloat r.2.2 with
      | some qv, some pv => some (pyStrip r.1, qv, pv)
      | _, _ => none)
    (rows.filter (fun r => ¬ pyStrip r.1 = ""))

/-- The length of the shortest of the three parallel arrays. -/
def minLen (f : Form) : Nat :=
  min (min f.item_names.length f.item_qtys.length) f.item_prices.length

/-- The submission with its three parallel arrays truncated to the
shortest of their lengths, everything else unchanged. -/
def truncForm (f : Form) : Form :=
  ⟨f.client_name, f.tax_rate, f.discount_rate,
   f.item_names.take (minLen f), f.item_qtys.take (minLen f),
   f.item_prices.take (minLen f)⟩

/-- Autoincrement primary key assigned to a freshly inserted invoice row. -/
def freshInvoiceId (db : DB) : Nat :=
  (db.invoices.map (fun r => r.id)).foldl max 0 + 1

/-- Outcome of a request handler: a redirect, a 404, or an unhandled
exception (Python traceback → HTTP 500). -/
inductive HResult
  | redirect (location : String)
  | notFound
  | err
deriving DecidableEq, Repr

/-- `new_invoice` POST handler (lines 106-124), given the clock output
`now` (the formatted `date_created` default).  The invoice row is committed
(line 112) *before* the item loop runs; a parse failure in the loop leaves
that first commit in place and loses only the uncommitted item inserts. -/
def new_invoice (db : DB) (now : String) (f : Form) : DB × HResult :=
  match getRate f.tax_rate, getRate f.discount_rate with
  | some t, some d =>
    let iid := freshInvoiceId db
    let row : InvoiceRow := ⟨iid, getClientName f, t, d, now⟩
    let db1 : DB := ⟨db.invoices ++ [row], db.items⟩
    match parseItems f.item_names f.item_qtys f.item_prices with
    | some l =>
      (⟨db1.invoices, db1.items ++ l.map (fun r => ⟨iid, r.1, r.2.1, r.2.2⟩)⟩,
       .redirect "index")
    | none => (db1, .err)
  | _, _ => (db, .err)

/-- `edit_invoice` POST handler (lines 129-147).  `get_or_404` first; then
the scalar fields are parsed (a failure there raises before any database
write), the old items are bulk-deleted and the new ones inserted inside the
session, and a single commit (line 145) publishes everything; a parse
failure inside the loop rolls the whole session back, leaving the stored
state untouched. -/
def edit_invoice (db : DB) (invoice_id : Nat) (f : Form) : DB × HResult :=
  match db.invoices.find? (fun r => r.id = invoice_id) with
  | none => (db, .notFound)
  | some _ =>
    match getRate f.tax_rate, getRate f.discount_rate with
    | some t, some d =>
      match parseItems f.item_names f.item_qtys f.item_prices with
      | some l =>
        let invs := db.invoices.map (fun r0 =>
          if r0.id = invoice_id then
            ⟨r0.id, getClientName f, t, d, r0.date_created⟩
          else r0)
        let its := db.items.filter (fun it => ¬ it.invoice_id = invoice_id)
          ++ l.map (fun x => ⟨invoice_id, x.1, x.2.1, x.2.2⟩)
        (⟨invs, its⟩, .redirect "index")
      | none => (db, .err)
    | _, _ => (db, .err)

/-- `delete_invoice` handler (lines 150-157).  `db.session.delete(invoice)`
with the `cascade="all, delete-orphan"` relationship of line 47 removes the
invoice row and every one of its line items. -/
def delete_invoice (db : DB) (invoice_id : Nat) : DB × HResult :=
  match db.invoices.find? (fun r => r.id = invoice_id) with
  | none => (db, .notFound)
  | some _ =>
    (⟨db.invoices.filter (fun r0 => ¬ r0.id = invoice_id),
      db.items.filter (fun it => ¬ it.invoice_id = invoice_id)⟩,
     .redirect "index")

/-! ## Spreadsheet export (`src/app.py` lines 166-197) -/

structure Company where
  name : String
  address : String
  phone : String
deriving DecidableEq, Repr

/-- The `COMPANY` dict (lines 27-31). -/
def COMPANY : Company :=
  ⟨"HITS Hub Innovative Software Company", "Kano, Nigeria", "+2348065395103"⟩

/-- A spreadsheet cell.  Python writes strings, ints and floats; an
f-string embedding a float value is kept symbolic as `interp pre v post`
(standing for `pre + str(v) + post`), so that nothing here depends on a
model of Python's float-to-string conversion. -/
inductive Cell
  | s (v : String)
  | i (v : Int)
  | q (v : ℚ)
  | interp (pre : String) (v : ℚ) (post : String)
deriving DecidableEq, Repr

/-- The rows appended to the single worksheet by `export_excel`
(lines 174-190), in order. -/
def excelRows (invoice : Invoice) : List (List Cell) :=
  [[.s COMPANY.name],
   [.s COMPANY.address],
   [.s COMPANY.phone],
   [],
   [.s ("Invoice #" ++ toString invoice.id), .s ("Date: " ++ invoice.date_created)],
   []]
  ++ [[.s "Item", .s "Qty", .s "Price", .s "Subtotal"]]
  ++ invoice.items.map (fun item =>
      [.s item.name, .i item.qty, .q item.price, .q ((item.qty : ℚ) * item.price)])
  ++ [[],
      [.s "", .s "", .s "Subtotal", .q (calculate_invoice_totals invoice).1],
      [.s "", .s "", .interp "Tax (" invoice.tax_rate "%)",
       .q (calculate_invoice_totals invoice).2.1],
      [.s "", .s "", .interp "Discount (" invoice.discount_rate "%)",
       .q (calculate_invoice_totals invoice).2.2.1],
      [.s "", .s "", .s "Total", .q (calculate_invoice_totals invoice).2.2.2]]

/-! ## PDF export (`src/app.py` lines 200-277) -/

/-- Text drawn on the canvas: a plain string, `str(qty)`, a float formatted
with `f"{v:.2f}"` (kept symbolic as `num2 v`), or an f-string embedding a
float (`interp pre v post`). -/
inductive Txt
  | raw (v : String)
  | int (v : Int)
  | num2 (v : ℚ)
  | interp (pre : String) (v : ℚ) (post : String)
deriving DecidableEq, Repr

/-- A ReportLab canvas drawing command as issued by `export_pdf`. -/
inductive PdfCmd
  | setFont (font : String) (size : Nat)
  | drawString (x : Int) (y : Int) (t : Txt)
  | drawRightString (x : Int) (y : Int) (t : Txt)
deriving DecidableEq, Repr

/-- The single page produced by `export_pdf`: its page size and the drawing
commands in issue order. -/
structure PdfDoc where
  page_width : Nat
  page_height : Nat
  cmds : List PdfCmd
deriving DecidableEq, Repr

/-- The item rows loop (lines 246-251): each row draws name (truncated to
30 characters), qty, price and line total, then moves down one
`line_height` (18). -/
def pdfItemCmds : List ItemRow → Int → List PdfCmd
  | [], _ => []
  | item :: rest, y =>
    [.drawString 10 y (.raw ⟨item.name.data.take 30⟩),
     .drawRightString 250 y (.int item.qty),
     .drawRightString 320 y (.num2 item.price),
     .drawRightString 410 y (.num2 ((item.qty : ℚ) * item.price))]
    ++ pdfItemCmds rest (y - 18)

/-- `export_pdf` body after `get_or_404` (lines 204-270): page geometry and
the drawn content. -/
def export_pdf_doc (invoice : Invoice) : PdfDoc :=
  let page_width : Nat := 420
  let line_height : Nat := 18
  let top_margin : Nat := 30
  let bottom_margin : Nat := 40
  let header_height : Nat := 120
  let totals_height : Nat := 90
  let page_height : Nat :=
    top_margin + header_height + invoice.items.length * line_height
      + totals_height + bottom_margin
  let y0 : Int := (page_height : Int) - (top_margin : Int)
  let y1 : Int := y0 - 20
  let y2 : Int := y1 - 14
  let y3 : Int := y2 - 25
  let y4 : Int := y3 - 16
  let y5 : Int := y4 - 25
  let y6 : Int := y5 - (line_height : Int)
  let yAfterItems : Int := y6 - (invoice.items.length : Int) * (line_height : Int)
  let yT0 : Int := yAfterItems - 15
  let yT1 : Int := yT0 - (line_height : Int)
  let yT2 : Int := yT1 - (line_height : Int)
  let yT3 : Int := yT2 - (line_height : Int)
  let totals := calculate_invoice_totals invoice
  { page_width := page_width
    page_height := page_height
    cmds :=
      [.setFont "Helvetica-Bold" 14,
       .drawString 10 y0 (.raw COMPANY.name),
       .setFont "Helvetica" 10,
       .drawString 10 y1 (.raw COMPANY.address),
       .drawString 10 y2 (.raw COMPANY.phone),
       .setFont "Helvetica-Bold" 12,
       .drawString 10 y3 (.raw ("Invoice #" ++ toString invoice.id)),
       .setFont "Helvetica" 10,
       .drawString 10 y4 (.raw ("Date: " ++ invoice.date_created)),
       .setFont "Helvetica-Bold" 10,
       .drawString 10 y5 (.raw "Item"),
       .drawRightString 250 y5 (.raw "Qty"),
       .drawRightString 320 y5 (.raw "Price"),
       .drawRightString 410 y5 (.raw "Total"),
       .setFont "Helvetica" 10]
      ++ pdfItemCmds invoice.items y6
      ++ [.setFont "Helvetica-Bold" 10,
          .drawRightString 320 yT0 (.raw "Subtotal:"),
          .drawRightString 410 yT0 (.num2 totals.1),
          .drawRightString 320 yT1 (.interp "Tax (" invoice.tax_rate "%):"),
          .drawRightString 410 yT1 (.num2 totals.2.1),
          .drawRightString 320 yT2 (.interp "Discount (" invoice.discount_rate "%):"),
          .drawRightString 410 yT2 (.num2 totals.2.2.1),
          .drawRightString 320 yT3 (.raw "Total:"),
          .drawRightString 410 yT3 (.num2 totals.2.2.2)] }

/-! ## Export endpoints (`src/app.py` lines 166-168, 200-202, 272-277) -/

/-- An HTTP response from an export endpoint: the `login_required` redirect,
`get_or_404`'s not-found page, or a `send_file` attachment with its
download name, MIME type and content. -/
inductive Response (α : Type)
  | redirectLogin
  | notFound
  | file (download_name : String) (mimetype : String) (content : α)
deriving DecidableEq, Repr

/-- The spreadsheet MIME type (line 197). -/
def excelMime : String :=
  "application/vnd.openxmlformats-officedocument.spreadsheetml.sheet"

/-- `export_excel` endpoint: auth gate, `get_or_404`, then the worksheet as
an attachment. -/
def export_excel (authed : Bool) (db : DB) (invoice_id : Nat) :
    Response (List (List Cell)) :=
  if authed then
    match loadInvoice db invoice_id with
    | none => .notFound
    | some inv =>
      .file ("invoice_" ++ toString inv.id ++ ".xlsx") excelMime (excelRows inv)
  else .redirectLogin

/-- `export_pdf` endpoint: auth gate, `get_or_404`, then the rendered page
as an attachment. -/
def export_pdf (authed : Bool) (db : DB) (invoice_id : Nat) :
    Response PdfDoc :=
  if authed then
    match loadInvoice db invoice_id with
    | none => .notFound
    | some inv =>
      .file ("invoice_" ++ toString inv.id ++ ".pdf") "application/pdf"
        (export_pdf_doc inv)
  else .redirectLogin

/-! ## Concrete instances used by counterexamples and witnesses -/

/-- A zero-item invoice. -/
def inv0 : Invoice := ⟨1, "Acme Ltd", 10, 5, "2024-01-01", []⟩

/-- The empty store. -/
def db0 : DB := ⟨[], []⟩

/-- A fixed clock output. -/
def now0 : String := "2024-01-01"

/-- A submission whose single item row has a non-blank name and a
malformed quantity. -/
def form4 : Form := ⟨some "Acme Ltd", some "10", some "5", ["Widget"], ["x"], ["1"]⟩

/-- A submission whose single item row has a blank name and a malformed
quantity. -/
def form6 : Form := ⟨some "Acme Ltd", none, none, [""], ["x"], ["5"]⟩

/-- A submission with a non-blank name and a malformed quantity, rates
left absent. -/
def form6b : Form := ⟨some "Acme Ltd", none, none, ["Widget"], ["x"], ["5"]⟩

/-- A stored invoice row and line item. -/
def row1 : InvoiceRow := ⟨1, "Acme Ltd", 10, 5, "2024-01-01"⟩

def item1 : ItemRow := ⟨1, "Widget", 2, 5⟩

def db1 : DB := ⟨[row1], [item1]⟩

/-- A concrete submission with one blank-named row and one row whose name
needs trimming. -/
def form5 : Form :=
  ⟨some "Acme Ltd", some "10", some "5", ["", " Gadget "], ["1", "2"], ["3", "4.5"]⟩

/-- The ORM object loaded for the stored invoice `row1`. -/
def inv1 : Invoice := ⟨1, "Acme Ltd", 10, 5, "2024-01-01", [item1]⟩

/-- A second stored invoice with its own line item. -/
def row2 : InvoiceRow := ⟨2, "Globex", 0, 0, "2024-02-02"⟩

def item2 : ItemRow := ⟨2, "Gadget", 1, 2⟩

def db2 : DB := ⟨[row1, row2], [item1, item2]⟩

/-! ## Claims -/

/-- C1: For every invoice with tax rate `t`, discount rate `d`, and line
items `(qty_i, price_i)`, `calculate_invoice_totals` returns exactly
`(subtotal, tax_amount, discount_amount, total)` with
`subtotal = Σ qty_i * price_i`, `tax_amount = subtotal * t/100`,
`discount_amount = subtotal * d/100`, and
`total = subtotal + tax_amount - discount_amount`. -/
theorem C1_totals_formula (inv : Invoice) :
    calculate_invoice_totals inv =
      ((inv.items.map (fun item => (item.qty : ℚ) * item.price)).sum,
       (inv.items.map (fun item => (item.qty : ℚ) * item.price)).sum
         * (inv.tax_rate / 100),
       (inv.items.map (fun item => (item.qty : ℚ) * item.price)).sum
         * (inv.discount_rate / 100),
       (inv.items.map (fun item => (item.qty : ℚ) * item.price)).sum
         + (inv.items.map (fun item => (item.qty : ℚ) * item.price)).sum
             * (inv.tax_rate / 100)
         - (inv.items.map (fun item => (item.qty : ℚ) * item.price)).sum
             * (inv.discount_rate / 100)) := rfl

/-- C2 counterexample: the spreadsheet sheet for a zero-item invoice has 12
rows, not the claimed `11 + 0`: the export appends 7 fixed rows before the
item rows (company name, address, phone, blank, invoice/date, blank, and
the column-header row), not 6. -/
theorem C2_counterexample :
    (excelRows inv0).length = 12 ∧
      ¬ (excelRows inv0).length = 11 + inv0.items.length := by
  exact ⟨by decide, by decide⟩

/-- C2 (amended): for every invoice with `n` line items, the spreadsheet
export produces a sheet with 7 fixed header/blank rows (company name,
address, phone, blank, invoice-number/date, blank, column-header row), plus
`n` item rows, plus 1 blank row, plus 4 totals rows — `12 + n` rows in
total. -/
theorem C2_excel_rowcount (inv : Invoice) :
    (excelRows inv).length = 12 + inv.items.length := by
  simp [excelRows]
  omega

/-- C3: for every invoice with `n` line items, the PDF export computes the
page height as exactly `30 + 120 + n*18 + 90 + 40`, with the page width
fixed at 420 units. -/
theorem C3_pdf_page_geometry (inv : Invoice) :
    (export_pdf_doc inv).page_height
        = 30 + 120 + inv.items.length * 18 + 90 + 40 ∧
      (export_pdf_doc inv).page_width = 420 :=
  ⟨rfl, rfl⟩

/-- C9: `calculate_invoice_totals` is pure and deterministic: its result
depends only on the rates and the item list (two invoices agreeing on
those get identical outputs), and two consecutive calls return identical
results and leave the invoice exactly as it was. -/
theorem C9_totals_pure :
    (∀ inv1 inv2 : Invoice, inv1.tax_rate = inv2.tax_rate →
        inv1.discount_rate = inv2.discount_rate → inv1.items = inv2.items →
        calculate_invoice_totals inv1 = calculate_invoice_totals inv2) ∧
    (∀ inv : Invoice,
        calculate_invoice_totals_twice inv =
          ((calculate_invoice_totals inv, calculate_invoice_totals inv), inv)) := by
  constructor
  · intro inv1 inv2 h1 h2 h3
    unfold calculate_invoice_totals
    rw [h1, h2, h3]
  · intro inv
    rfl

/-- C9 witness: two invoices differing only in id, client name and date get
identical totals. -/
theorem C9_witness :
    calculate_invoice_totals ⟨1, "Acme Ltd", 10, 5, "2024-01-01", []⟩ =
      calculate_invoice_totals ⟨2, "Globex", 10, 5, "2024-02-02", []⟩ :=
  C9_totals_pure.1 _ _ rfl rfl rfl

/-- C4 counterexample: a create request that fails on `int("x")` partway
through the item loop does NOT leave the store as it was — the invoice row
was committed (line 112) before the loop, so it survives the failure. -/
theorem C4_counterexample :
    (new_invoice db0 now0 form4).2 = HResult.err ∧
      ¬ (new_invoice db0 now0 form4).1 = db0 := by
  exact ⟨by with_unfolding_all decide, by with_unfolding_all decide⟩

/-- C4 (amended): edit is atomic — a failed edit leaves the stored state
exactly as before — but create is not: `new_invoice` commits the invoice
row before parsing the items, so a qty/price parse failure partway through
the item list leaves that new invoice row persisted (with no line items);
the items table itself is never partially written. -/
theorem C4_atomicity :
    (∀ (db : DB) (invoice_id : Nat) (f : Form),
        (edit_invoice db invoice_id f).2 = HResult.err →
        (edit_invoice db invoice_id f).1 = db) ∧
    (∀ (db : DB) (now : String) (f : Form),
        (new_invoice db now f).2 = HResult.err →
        (new_invoice db now f).1.items = db.items ∧
          ((new_invoice db now f).1.invoices = db.invoices ∨
            ∃ row, (new_invoice db now f).1.invoices = db.invoices ++ [row])) := by
  constructor
  · intro db invoice_id f h
    unfold edit_invoice at h ⊢
    cases hfind : db.invoices.find? (fun r => r.id = invoice_id) with
    | none => rfl
    | some r =>
      cases ht : getRate f.tax_rate with
      | none => rfl
      | some t =>
        cases hd : getRate f.discount_rate with
        | none => rfl
        | some d =>
          cases hp : parseItems f.item_names f.item_qtys f.item_prices with
          | none => rfl
          | some l => simp [hfind, ht, hd, hp] at h
  · intro db now f h
    unfold new_invoice at h ⊢
    cases ht : getRate f.tax_rate with
    | none => exact ⟨rfl, Or.inl rfl⟩
    | some t =>
      cases hd : getRate f.discount_rate with
      | none => exact ⟨rfl, Or.inl rfl⟩
      | some d =>
        cases hp : parseItems f.item_names f.item_qtys f.item_prices with
        | none =>
          exact ⟨rfl,
            Or.inr ⟨⟨freshInvoiceId db, getClientName f, t, d, now⟩, rfl⟩⟩
        | some l => simp [ht, hd, hp] at h

/-- C4 witness: a failed edit on a one-invoice store leaves it unchanged,
and the failed create of `C4_counterexample` leaves the items table empty
while appending one invoice row. -/
theorem C4_witness :
    (edit_invoice db1 1 form4).2 = HResult.err ∧
      (edit_invoice db1 1 form4).1 = db1 ∧
      (new_invoice db0 now0 form4).1.items = db0.items := by
  have he : (edit_invoice db1 1 form4).2 = HResult.err := by
    with_unfolding_all decide
  have hn : (new_invoice db0 now0 form4).2 = HResult.err := by
    with_unfolding_all decide
  exact ⟨he, C4_atomicity.1 db1 1 form4 he, (C4_atomicity.2 db0 now0 form4 hn).1⟩

/-- If some row of the zipped submission has a non-blank stripped name and
a quantity or price that fails to parse, the whole item loop raises. -/
theorem parseRows_eq_none_of_bad {rows : List (String × String × String)}
    {n q p : String} (hmem : (n, q, p) ∈ rows) (hname : ¬ pyStrip n = "")
    (hbad : pyParseInt q = none ∨ pyParseFloat p = none) :
    parseRows rows = none := by
  induction rows with
  | nil => cases hmem
  | cons head rest ih =>
    rcases head with ⟨hn, hq, hp⟩
    rcases List.mem_cons.mp hmem with heq | hm
    · cases heq
      rcases hbad with hb | hb
      · simp [parseRows, hname, hb]
      · cases hqv : pyParseInt q <;> simp [parseRows, hname, hqv, hb]
    · by_cases hb : pyStrip hn = ""
      · simpa [parseRows, hb] using ih hm
      · cases hqv : pyParseInt hq <;> cases hpv : pyParseFloat hp <;>
          simp [parseRows, hb, hqv, hpv, ih hm]

/-- C6 counterexample: a submission containing the malformed quantity
`"x"` — in a row whose name is blank — does not fail: the row is skipped
before `int()` is ever called, and the create request succeeds. -/
theorem C6_counterexample :
    pyParseInt "x" = none ∧
      (new_invoice db0 now0 form6).2 = HResult.redirect "index" := by
  exact ⟨by decide, by decide⟩

/-- C6 (amended): a qty/price is parsed (integer / floating point) exactly
for the rows of the zipped submission whose name is non-blank after
trimming; a malformed value in such a row fails the request (create always
errors; edit errors unless the id was already absent).  Malformed values
in blank-named rows, or beyond the shortest of the three arrays, are never
parsed and never fail the request. -/
theorem C6_malformed_nonblank_fails (f : Form) (n q p : String)
    (hmem : (n, q, p) ∈ zip3 f.item_names f.item_qtys f.item_prices)
    (hname : ¬ pyStrip n = "")
    (hbad : pyParseInt q = none ∨ pyParseFloat p = none) :
    parseItems f.item_names f.item_qtys f.item_prices = none ∧
      (∀ (db : DB) (now : String), (new_invoice db now f).2 = HResult.err) ∧
      (∀ (db : DB) (invoice_id : Nat),
        (edit_invoice db invoice_id f).2 = HResult.err ∨
          (edit_invoice db invoice_id f).2 = HResult.notFound) := by
  have hnone : parseItems f.item_names f.item_qtys f.item_prices = none :=
    parseRows_eq_none_of_bad hmem hname hbad
  refine ⟨hnone, ?_, ?_⟩
  · intro db now
    unfold new_invoice
    cases ht : getRate f.tax_rate with
    | none => rfl
    | some t =>
      cases hd : getRate f.discount_rate with
      | none => rfl
      | some d => simp [hnone]
  · intro db invoice_id
    unfold edit_invoice
    cases hfind : db.invoices.find? (fun r => r.id = invoice_id) with
    | none => exact Or.inr rfl
    | some r =>
      cases ht : getRate f.tax_rate with
      | none => exact Or.inl rfl
      | some t =>
        cases hd : getRate f.discount_rate with
        | none => exact Or.inl rfl
        | some d => exact Or.inl (by simp [hnone])

/-- C6 witness: the malformed quantity `"x"` in the non-blank row
`("Widget", "x", "5")` makes the create request fail. -/
theorem C6_witness :
    parseItems ["Widget"] ["x"] ["5"] = none ∧
      (new_invoice db0 now0 form6b).2 = HResult.err := by
  have h := C6_malformed_nonblank_fails form6b "Widget" "x" "5"
    (by decide) (by decide) (Or.inl (by decide))
  exact ⟨h.1, h.2.1 db0 now0⟩

/-! ## C5: which rows persist -/

/-- The item loop agrees with the spec-side description row for row. -/
theorem parseRows_eq_spec (rows : List (String × String × String)) :
    parseRows rows = specPersistedItems rows := by
  induction rows with
  | nil => rfl
  | cons head rest ih =>
    rcases head with ⟨n, q, p⟩
    by_cases hb : pyStrip n = ""
    · simpa [parseRows, specPersistedItems, hb] using ih
    · cases hq : pyParseInt q <;> cases hp2 : pyParseFloat p <;>
        simp [parseRows, specPersistedItems, hb, hq, hp2, ih, Option.map_eq_bind,
          Function.comp]

/-- C5: for every create or edit submission, exactly the zipped rows whose
name is non-blank after trimming are persisted as line items (blank-named
rows are dropped), and a successful edit replaces the invoice's item set
wholesale: old items deleted, the newly parsed ones inserted. -/
theorem C5_persisted_rows :
    (∀ rows : List (String × String × String),
        parseRows rows = specPersistedItems rows) ∧
    (∀ (db : DB) (invoice_id : Nat) (f : Form),
        (edit_invoice db invoice_id f).2 = HResult.redirect "index" →
        ∃ l, parseItems f.item_names f.item_qtys f.item_prices = some l ∧
          (edit_invoice db invoice_id f).1.items =
            db.items.filter (fun it => ¬ it.invoice_id = invoice_id)
              ++ l.map (fun x => ⟨invoice_id, x.1, x.2.1, x.2.2⟩)) ∧
    (∀ (db : DB) (now : String) (f : Form),
        (new_invoice db now f).2 = HResult.redirect "index" →
        ∃ l, parseItems f.item_names f.item_qtys f.item_prices = some l ∧
          (new_invoice db now f).1.items =
            db.items ++ l.map (fun x => ⟨freshInvoiceId db, x.1, x.2.1, x.2.2⟩)) := by
  refine ⟨parseRows_eq_spec, ?_, ?_⟩
  · intro db invoice_id f h
    unfold edit_invoice at h ⊢
    cases hfind : db.invoices.find? (fun r => r.id = invoice_id) with
    | none => simp [hfind] at h
    | some r =>
      cases ht : getRate f.tax_rate with
      | none => simp [hfind, ht] at h
      | some t =>
        cases hd : getRate f.discount_rate with
        | none => simp [hfind, ht, hd] at h
        | some d =>
          cases hp : parseItems f.item_names f.item_qtys f.item_prices with
          | none => simp [hfind, ht, hd, hp] at h
          | some l => exact ⟨l, rfl, rfl⟩
  · intro db now f h
    unfold new_invoice at h ⊢
    cases ht : getRate f.tax_rate with
    | none => simp [ht] at h
    | some t =>
      cases hd : getRate f.discount_rate with
      | none => simp [ht, hd] at h
      | some d =>
        cases hp : parseItems f.item_names f.item_qtys f.item_prices with
        | none => simp [ht, hd, hp] at h
        | some l => exact ⟨l, rfl, rfl⟩

/-- C5 witness: editing the stored invoice with a submission holding one
blank-named row and one row named `" Gadget "` persists exactly the
trimmed `"Gadget"` row, replacing the old item. -/
theorem C5_witness :
    parseRows (zip3 form5.item_names form5.item_qtys form5.item_prices) =
        specPersistedItems (zip3 form5.item_names form5.item_qtys form5.item_prices) ∧
      ∃ l, parseItems form5.item_names form5.item_qtys form5.item_prices = some l ∧
        (edit_invoice db1 1 form5).1.items =
          db1.items.filter (fun it => ¬ it.invoice_id = 1)
            ++ l.map (fun x => ⟨1, x.1, x.2.1, x.2.2⟩) :=
  ⟨C5_persisted_rows.1 _,
   C5_persisted_rows.2.1 db1 1 form5 (by with_unfolding_all decide)⟩

/-! ## C7: export endpoints -/

/-- The loaded ORM object's primary key is the requested one. -/
theorem loadInvoice_id_eq {db : DB} {invoice_id : Nat} {inv : Invoice}
    (h : loadInvoice db invoice_id = some inv) : inv.id = invoice_id := by
  unfold loadInvoice at h
  cases hfind : db.invoices.find? (fun r => r.id = invoice_id) with
  | none => rw [hfind] at h; cases h
  | some r =>
    have hr := List.find?_some hfind
    rw [hfind] at h
    simp only [Option.map_some'] at h
    cases h
    simpa using hr

/-- C7: exporting a missing invoice id returns the not-found outcome for
both endpoints, and exporting an existing id returns an attachment named
`invoice_{id}.xlsx` with the spreadsheet MIME type, respectively
`invoice_{id}.pdf` with the PDF MIME type. -/
theorem C7_export_responses (db : DB) (invoice_id : Nat) :
    (loadInvoice db invoice_id = none →
        export_excel true db invoice_id = Response.notFound ∧
          export_pdf true db invoice_id = Response.notFound) ∧
    (∀ inv, loadInvoice db invoice_id = some inv →
        export_excel true db invoice_id =
          Response.file ("invoice_" ++ toString invoice_id ++ ".xlsx")
            excelMime (excelRows inv) ∧
        export_pdf true db invoice_id =
          Response.file ("invoice_" ++ toString invoice_id ++ ".pdf")
            "application/pdf" (export_pdf_doc inv)) := by
  constructor
  · intro h
    constructor <;> simp [export_excel, export_pdf, h]
  · intro inv h
    have hid : inv.id = invoice_id := loadInvoice_id_eq h
    constructor <;> simp [export_excel, export_pdf, h, hid]

/-- C7 witness: on a store holding only invoice 1, exporting id 2 gives
not-found and exporting id 1 gives the two attachments. -/
theorem C7_witness :
    export_excel true db1 2 = Response.notFound ∧
      export_pdf true db1 2 = Response.notFound ∧
      export_excel true db1 1 =
        Response.file ("invoice_" ++ toString (1 : Nat) ++ ".xlsx")
          excelMime (excelRows inv1) ∧
      export_pdf true db1 1 =
        Response.file ("invoice_" ++ toString (1 : Nat) ++ ".pdf")
          "application/pdf" (export_pdf_doc inv1) := by
  have h2 := (C7_export_responses db1 2).1 (by decide)
  have h1 := (C7_export_responses db1 1).2 inv1 (by decide)
  exact ⟨h2.1, h2.2, h1.1, h1.2⟩

/-! ## C8: cascade delete -/

/-- C8: deleting a stored invoice deletes every line item belonging to it:
afterwards no line item row references the deleted invoice id. -/
theorem C8_delete_cascades (db : DB) (invoice_id : Nat) (r : InvoiceRow)
    (hfind : db.invoices.find? (fun r0 => r0.id = invoice_id) = some r) :
    ∀ it ∈ (delete_invoice db invoice_id).1.items,
      ¬ it.invoice_id = invoice_id := by
  intro it hit
  unfold delete_invoice at hit
  simp only [hfind] at hit
  simp [List.mem_filter] at hit
  exact hit.2

/-- C8 witness: after deleting invoice 1 from a two-invoice store, the
surviving item `item2` does not reference invoice 1. -/
theorem C8_witness : ¬ item2.invoice_id = 1 :=
  C8_delete_cascades db2 1 row1 (by decide) item2 (by decide)

/-! ## C10: unequal-length parallel arrays -/

theorem zip3_nil_left {α β γ : Type} (bs : List β) (cs : List γ) :
    zip3 ([] : List α) bs cs = [] := rfl

theorem zip3_nil_mid {α β γ : Type} (as : List α) (cs : List γ) :
    zip3 as ([] : List β) cs = [] := by cases as <;> rfl

theorem zip3_nil_right {α β γ : Type} (as : List α) (bs : List β) :
    zip3 as bs ([] : List γ) = [] := by cases as <;> cases bs <;> rfl

theorem zip3_cons {α β γ : Type} (a : α) (b : β) (c : γ)
    (as : List α) (bs : List β) (cs : List γ) :
    zip3 (a :: as) (b :: bs) (c :: cs) = (a, b, c) :: zip3 as bs cs := rfl

/-- `zip` only ever reads the common prefix: truncating every array to the
shortest length changes nothing. -/
theorem zip3_take {α β γ : Type} (as : List α) (bs : List β) (cs : List γ) :
    zip3 as bs cs =
      zip3 (as.take (min (min as.length bs.length) cs.length))
        (bs.take (min (min as.length bs.length) cs.length))
        (cs.take (min (min as.length bs.length) cs.length)) := by
  induction as generalizing bs cs with
  | nil => simp [zip3_nil_left]
  | cons a as ih =>
    cases bs with
    | nil => simp [zip3_nil_mid]
    | cons b bs =>
      cases cs with
      | nil => simp [zip3_nil_right]
      | cons c cs =>
        have hk : min (min (a :: as).length (b :: bs).length) (c :: cs).length
            = min (min as.length bs.length) cs.length + 1 := by
          simp [Nat.succ_min_succ]
        rw [hk]
        simp only [List.take_succ_cons, zip3_cons]
        rw [← ih bs cs]

/-- C10: when the parallel arrays have unequal lengths, only positions up
to the length of the shortest array are considered; entries beyond that
are silently dropped — a create or edit request behaves exactly as if the
arrays had been truncated to the shortest length, with no error from the
surplus entries. -/
theorem C10_surplus_entries_dropped (db : DB) (now : String) (invoice_id : Nat)
    (f : Form) :
    zip3 f.item_names f.item_qtys f.item_prices =
      zip3 (f.item_names.take (minLen f)) (f.item_qtys.take (minLen f))
        (f.item_prices.take (minLen f)) ∧
    new_invoice db now f = new_invoice db now (truncForm f) ∧
    edit_invoice db invoice_id f = edit_invoice db invoice_id (truncForm f) := by
  have hz : zip3 f.item_names f.item_qtys f.item_prices =
      zip3 (f.item_names.take (minLen f)) (f.item_qtys.take (minLen f))
        (f.item_prices.take (minLen f)) := zip3_take _ _ _
  have hp : parseItems f.item_names f.item_qtys f.item_prices =
      parseItems (truncForm f).item_names (truncForm f).item_qtys
        (truncForm f).item_prices := by
    unfold parseItems truncForm
    rw [hz]
  refine ⟨hz, ?_, ?_⟩
  · unfold new_invoice
    rw [hp]
    rfl
  · unfold edit_invoice
    rw [hp]
    rfl

end InvoiceApp

-- Sanity checks: the primitive models agree with Python's behaviour on
-- representative inputs.
example : InvoiceApp.pyParseInt "12" = some 12 := by decide
example : InvoiceApp.pyParseInt " -3 " = some (-3) := by decide
example : InvoiceApp.pyParseInt "x" = none := by decide
example : InvoiceApp.pyParseInt "1.5" = none := by decide
example : InvoiceApp.pyParseFloat "5.0" = some 5 := by with_unfolding_all decide
example : InvoiceApp.pyParseFloat "9.99" = some (999/100) := by with_unfolding_all decide
example : InvoiceApp.pyParseFloat ".5" = some (1/2) := by with_unfolding_all decide
example : InvoiceApp.pyParseFloat "-2." = some (-2) := by with_unfolding_all decide
example : InvoiceApp.pyParseFloat "abc" = none := by decide
example : InvoiceApp.pyStrip "  Widget " = "Widget" := by decide
example : InvoiceApp.pyStrip "   " = "" := by decide
